import Mathlib

/-!
Verification of `src/facefusion/utilities.py`: the `format_value` helper and
the `log_call_path` decorator (its inner `wrapper` and `trace_calls`).

The Python code is shallowly embedded: Python values that can reach
`format_value` are a closed inductive `PyValue`; a Python exception is a
`PyExc` (type name and message, `str(e)` being the message); fallible Python
expressions are `Except PyExc`.  File appends and `sys.settrace` are modelled
by explicit state: an oracle `fs` decides, per write step and per target
file, whether the append raises, and the wrapper's outcome records which
appends happened, what the call returns or raises, and whether the
process-wide trace hook is still installed when the wrapper exits.
-/

set_option autoImplicit false

set_option maxRecDepth 8192

/-- A Python exception: its type name and its message (`str(e)` yields the
message). -/
structure PyExc where
  ty : String
  msg : String
  deriving DecidableEq, Repr

/-- The shapes of Python values distinguished by `format_value`.  Dictionary
keys are modelled as strings (rendered with Python single-quote repr); a
`plain` value is any value matching none of the earlier `isinstance` /
`hasattr` branches, carrying the outcome of its `str()` conversion, which in
Python may raise. -/
inductive PyValue where
  | argParser : PyValue
  | ndarray (shape : List Nat) (dtype : String) : PyValue
  | pylist (elems : List PyValue) : PyValue
  | pytuple (elems : List PyValue) : PyValue
  | pydict (entries : List (String × PyValue)) : PyValue
  | obj (cls : String) : PyValue
  | plain (strConv : Except PyExc String) : PyValue

/-- The single-quote character, used by Python repr of strings. -/
def sqQuote : String := String.singleton (Char.ofNat 39)

/-- Python repr of a plain string: wrapped in single quotes. -/
def pyStrRepr (s : String) : String := sqQuote ++ s ++ sqQuote

/-- Python repr of a list of strings, as printed by an f-string:
brackets, elements single-quoted, separated by a comma and a space. -/
def pyListRepr (xs : List String) : String :=
  "[" ++ String.intercalate (", ") (xs.map pyStrRepr) ++ "]"

/-- Python repr of a dict from strings to strings. -/
def pyDictRepr (ps : List (String × String)) : String :=
  "\x7b" ++
    String.intercalate (", ") (ps.map fun p => pyStrRepr p.1 ++ ": " ++ pyStrRepr p.2) ++
  "\x7d"

/-- Python repr of a numpy shape tuple: `(3, 4)`, with the one-element form
`(3,)`. -/
def shapeRepr : List Nat → String
  | [n] => "(" ++ toString n ++ ",)"
  | ns => "(" ++ String.intercalate (", ") (ns.map toString) ++ ")"

/-- `format_value` from utilities.py.  The branches mirror the source's
`if`/`elif` chain in order: ArgumentParser, numpy array, list/tuple, dict,
object with a `__dict__`, and finally `return str(value)` — the last branch
propagates an exception when the value's string conversion raises. -/
def format_value : PyValue → Except PyExc String
  | PyValue.argParser => Except.ok ("ArgumentParser()")
  | PyValue.ndarray shape dtype =>
      Except.ok ("ndarray(shape=" ++ shapeRepr shape ++ ", dtype=" ++ dtype ++ ")")
  | PyValue.pylist xs => Except.ok ("list(len=" ++ toString xs.length ++ ")")
  | PyValue.pytuple xs => Except.ok ("tuple(len=" ++ toString xs.length ++ ")")
  | PyValue.pydict entries =>
      Except.ok ("dict(keys=" ++ pyListRepr (entries.map Prod.fst) ++ ")")
  | PyValue.obj cls => Except.ok (cls ++ "()")
  | PyValue.plain strConv => strConv

/-- `[format_value(arg) for arg in args]`: formats each element in order,
propagating the first exception. -/
def mapFormat : List PyValue → Except PyExc (List String)
  | [] => Except.ok []
  | v :: vs => do
      let s ← format_value v
      let r ← mapFormat vs
      Except.ok (s :: r)

/-- `{k: format_value(v) for k, v in kwargs.items()}`: formats each value in
insertion order, propagating the first exception. -/
def formatPairs : List (String × PyValue) → Except PyExc (List (String × String))
  | [] => Except.ok []
  | p :: ps => do
      let s ← format_value p.2
      let r ← formatPairs ps
      Except.ok ((p.1, s) :: r)

/-- The body of the `try` in the wrapper's argument-formatting step: the args
list comprehension runs first, then the kwargs dict comprehension. -/
def argsKwargsRepr (args : List PyValue) (kwargs : List (String × PyValue)) :
    Except PyExc (List String × List (String × String)) := do
  let a ← mapFormat args
  let k ← formatPairs kwargs
  Except.ok (a, k)

/-- The wrapper's guarded argument formatting: on any exception it
substitutes `["<error formatting args>"]` for the positional arguments and
`{"error": str(e)}` for the keyword arguments. -/
def safeFormatArgs (args : List PyValue) (kwargs : List (String × PyValue)) :
    List String × List (String × String) :=
  match argsKwargsRepr args kwargs with
  | Except.ok p => p
  | Except.error e => (["<error formatting args>"], [("error", e.msg)])

/-- The kind of a `sys.settrace` event delivered to `trace_calls`. -/
inductive TraceEvent where
  | call : TraceEvent
  | lineEv : TraceEvent
  | returnEv : TraceEvent
  | exceptionEv : TraceEvent

/-- One trace-hook notification: the event kind, the entered code object's
name and filename, and the outcome of reading the frame's named parameters
(`inspect.getargvalues` plus the `name in args_info.locals` filter), which
may itself raise. -/
structure FrameEvent where
  event : TraceEvent
  co_name : String
  co_filename : String
  argvals : Except PyExc (List (String × PyValue))

/-- The `args` field of a nested-call record: either the formatted
parameter map or the error placeholder string. -/
inductive NestedArgs where
  | formatted (m : List (String × String)) : NestedArgs
  | errored (s : String) : NestedArgs

/-- One element of the wrapper's `nested_calls` list. -/
structure NestedCall where
  func : String
  file : String
  args : NestedArgs

/-- Python `s.startswith(p)`, structurally over the characters (the
built-in `String.startsWith` is byte-position based and does not reduce in
the kernel). -/
def startsWithChars : List Char → List Char → Bool
  | _, [] => true
  | [], _ :: _ => false
  | c :: cs, p :: ps => c == p && startsWithChars cs ps

/-- Python `s.startswith(p)` on strings. -/
def pyStartswith (s p : String) : Bool := startsWithChars s.data p.data

/-- Python `path.split("/")`, structurally over the characters: the slash
has code 47. -/
def splitSlash : List Char → List (List Char)
  | [] => [[]]
  | c :: cs =>
      let r := splitSlash cs
      if c == Char.ofNat 47 then [] :: r
      else
        match r with
        | [] => [[c]]
        | h :: t => (c :: h) :: t

/-- Python `path.split('/')[-1]`. -/
def basename (path : String) : String :=
  String.mk ((splitSlash path.data).getLastD [])

/-- One step of `trace_calls`: on a `call` event for a function whose name
does not start with an underscore, build a nested-call record, formatting
each parameter via `format_value`; if reading or formatting the parameters
raises, record the `<error getting args: ...>` placeholder instead.  All
other events produce no record. -/
def trace_step (ev : FrameEvent) : Option NestedCall :=
  match ev.event with
  | TraceEvent.call =>
      if pyStartswith ev.co_name ("_") then none
      else
        match ev.argvals.bind formatPairs with
        | Except.ok m =>
            some ⟨ev.co_name, basename ev.co_filename, NestedArgs.formatted m⟩
        | Except.error e =>
            some ⟨ev.co_name, basename ev.co_filename,
                  NestedArgs.errored ("<error getting args: " ++ e.msg ++ ">")⟩
  | _ => none

/-- JSON rendering of a string (no escaping needed for the characters the
model produces). -/
def jsonQ (s : String) : String := "\"" ++ s ++ "\""

/-- JSON rendering of the nested `args` object at indent level 2, as
`json.dumps(..., indent=2)` prints it. -/
def jsonArgsObj : List (String × String) → String
  | [] => "\x7b\x7d"
  | ps =>
      "\x7b\n" ++
        String.intercalate (",\n")
          (ps.map fun p => "    " ++ jsonQ p.1 ++ ": " ++ jsonQ p.2) ++
      "\n  \x7d"

/-- The completion log's rendering of one nested call:
`f"  {json.dumps(call, indent=2)}"`. -/
def renderNested (c : NestedCall) : String :=
  "  " ++ "\x7b\n  " ++ jsonQ ("function") ++ ": " ++ jsonQ c.func ++ ",\n  " ++
  jsonQ ("file") ++ ": " ++ jsonQ c.file ++ ",\n  " ++ jsonQ ("args") ++ ": " ++
  (match c.args with
   | NestedArgs.formatted m => jsonArgsObj m
   | NestedArgs.errored s => jsonQ s) ++
  "\n\x7d"

/-- The banner line: 100 equals signs. -/
def banner : String := String.join (List.replicate 100 ("="))

/-- The two append targets of every log batch: `log_file` (global,
date-partitioned) and `func_log_file` (per-callable). -/
inductive FileTarget where
  | globalFile : FileTarget
  | funcFile : FileTarget
  deriving DecidableEq

/-- Which of the wrapper's three write batches a file append belongs to. -/
inductive WriteStep where
  | entry : WriteStep
  | completion : WriteStep
  | failure : WriteStep
  deriving DecidableEq

/-- One invocation of a wrapped callable, with everything the wrapper's
behavior depends on: the entry-context strings, the arguments, the trace
events fired while the target runs, the target's outcome, the rendered
duration and traceback strings, and the file-system oracle saying which
appends raise (`some e`) and which succeed (`none`). -/
structure Invocation where
  current_time : String
  call_stack : String
  func_file : String
  func_name : String
  caller_file : String
  caller_name : String
  args : List PyValue
  kwargs : List (String × PyValue)
  events : List FrameEvent
  outcome : Except PyExc PyValue
  duration : String
  tb : String
  fs : WriteStep → FileTarget → Option PyExc

/-- What one invocation of the wrapper does: the appends that actually
happened (in order), the value returned or exception raised to the caller,
and whether the process-wide trace hook is still installed on exit. -/
structure WrapResult where
  written : List (FileTarget × WriteStep × List String)
  result : Except PyExc PyValue
  tracerArmed : Bool

/-- The `for file_path in [log_file, func_log_file]` append loop: the global
file first, then the per-callable file; an exception aborts the loop, so a
failure on the global file prevents the per-callable append. -/
def writeBatch (fs : WriteStep → FileTarget → Option PyExc) (step : WriteStep)
    (lines : List String) :
    List (FileTarget × WriteStep × List String) × Option PyExc :=
  match fs step FileTarget.globalFile with
  | some e => ([], some e)
  | none =>
      match fs step FileTarget.funcFile with
      | some e => ([(FileTarget.globalFile, step, lines)], some e)
      | none => ([(FileTarget.globalFile, step, lines),
                  (FileTarget.funcFile, step, lines)], none)

/-- The `log_entry` list built at entry.  The `[ARGS]`/`[KWARGS]` fields test
the original `args`/`kwargs` for emptiness (Python truthiness) and print
`None` when empty. -/
def entryLines (inv : Invocation) (args_repr : List String)
    (kwargs_repr : List (String × String)) : List String :=
  [ "\n" ++ banner,
    "[TIMESTAMP] " ++ inv.current_time,
    "[CALL STACK] " ++ inv.call_stack,
    "[FUNCTION] " ++ inv.func_file ++ "::" ++ inv.func_name,
    "[CALLER] " ++ inv.caller_file ++ "::" ++ inv.caller_name,
    "[ARGS] " ++ (if inv.args.isEmpty then "None" else pyListRepr args_repr),
    "[KWARGS] " ++ (if inv.kwargs.isEmpty then "None" else pyDictRepr kwargs_repr),
    "[START] Function execution started" ]

/-- The entry lines of an invocation, with the wrapper's guarded argument
formatting applied. -/
def entryLinesOf (inv : Invocation) : List String :=
  entryLines inv (safeFormatArgs inv.args inv.kwargs).1
    (safeFormatArgs inv.args inv.kwargs).2

/-- The `completion_entry` list written on the success path: the nested-call
records rendered one per line between the `[NESTED CALLS]` header and the
`[RESULT]` line. -/
def completionLines (nested : List NestedCall) (result_repr dur : String) :
    List String :=
  ("\n[NESTED CALLS]") ::
  nested.map renderNested ++
  [ "\n[RESULT] " ++ result_repr,
    "[DURATION] " ++ dur ++ " seconds",
    "[END] Function execution completed successfully",
    banner ++ "\n" ]

/-- The `error_entry` list written by the `except` block. -/
def errorLines (fname emsg tb dur : String) : List String :=
  [ "\n[ERROR] Exception in " ++ fname ++ ": " ++ emsg,
    "[TRACEBACK] " ++ tb,
    "[DURATION] " ++ dur ++ " seconds",
    "[END] Function execution failed",
    banner ++ "\n" ]

/-- The wrapper produced by `log_call_path`, as a function of one
invocation.  Control flow mirrors the source: entry lines are formatted and
appended to both files (an append failure here propagates before the tracer
is armed); inside the `try`, `sys.settrace(trace_calls)` arms the hook and
the target runs, its trace events accumulating in `nested_calls`; on normal
return the hook is removed by `sys.settrace(None)`, the result is formatted
(guarded), and the completion batch is appended — an append failure there
falls into the `except` block; on a target exception the `except` block runs
with the hook still installed (the source never calls `sys.settrace(None)`
on this path), appends the error batch, and re-raises.  A failed append in
the `except` block replaces the propagating exception. -/
def wrapper (inv : Invocation) : WrapResult :=
  let w1 := writeBatch inv.fs WriteStep.entry (entryLinesOf inv)
  match w1.2 with
  | some e => ⟨w1.1, Except.error e, false⟩
  | none =>
      let nested_calls := inv.events.filterMap trace_step
      match inv.outcome with
      | Except.ok result =>
          let result_repr :=
            match format_value result with
            | Except.ok s => s
            | Except.error e => "<error formatting result: " ++ e.msg ++ ">"
          let w2 := writeBatch inv.fs WriteStep.completion
            (completionLines nested_calls result_repr inv.duration)
          match w2.2 with
          | none => ⟨w1.1 ++ w2.1, Except.ok result, false⟩
          | some e =>
              let w3 := writeBatch inv.fs WriteStep.failure
                (errorLines inv.func_name e.msg inv.tb inv.duration)
              match w3.2 with
              | none => ⟨w1.1 ++ w2.1 ++ w3.1, Except.error e, false⟩
              | some e2 => ⟨w1.1 ++ w2.1 ++ w3.1, Except.error e2, false⟩
      | Except.error e =>
          let w3 := writeBatch inv.fs WriteStep.failure
            (errorLines inv.func_name e.msg inv.tb inv.duration)
          match w3.2 with
          | none => ⟨w1.1 ++ w3.1, Except.error e, true⟩
          | some e2 => ⟨w1.1 ++ w3.1, Except.error e2, true⟩

/-- A sample exception raised by a broken `__str__`. -/
def boom : PyExc := ⟨"RuntimeError", "boom"⟩

/-- A sample I/O error raised by a failing file append. -/
def ioerr : PyExc := ⟨"OSError", "disk full"⟩

/-- A sample target exception. -/
def zde : PyExc := ⟨"ZeroDivisionError", "division by zero"⟩

/-- A value whose default string conversion raises `boom`: it matches none
of the `isinstance`/`hasattr` branches and its `__str__` raises. -/
def badValue : PyValue := PyValue.plain (Except.error boom)

/-- A Python int, formatted by the fallback `str(value)` branch. -/
def plainInt (n : Nat) : PyValue := PyValue.plain (Except.ok (toString n))

/-- A file-system oracle on which every append succeeds. -/
def fsOK : WriteStep → FileTarget → Option PyExc := fun _ _ => none

/-- A baseline successful invocation: `add(2, 3)` returning `5`, no nested
calls, all appends succeeding. -/
def sampleInv : Invocation where
  current_time := "2025-01-01 00:00:00.000000"
  call_stack := "core.py::run"
  func_file := "utilities.py"
  func_name := "add"
  caller_file := "core.py"
  caller_name := "run"
  args := [plainInt 2, plainInt 3]
  kwargs := []
  events := []
  outcome := Except.ok (plainInt 5)
  duration := "0.0001"
  tb := "NoneType: None"
  fs := fsOK

/-- The same invocation with the target raising a `ZeroDivisionError`. -/
def invRaise : Invocation := { sampleInv with outcome := Except.error zde }

/-- The expected rendering of `format_value({"a": 1, "b": 2})`:
the literal string dict(keys=['a', 'b']). -/
def expectedC8 : String :=
  "dict(keys=[" ++ sqQuote ++ "a" ++ sqQuote ++ ", " ++ sqQuote ++ "b" ++ sqQuote ++ "])"

/-- The fallback string conversion of a value succeeds; trivially true for
every value handled by one of the earlier dispatch branches. -/
def strConvOk : PyValue → Prop
  | PyValue.plain strConv => strConv.isOk = true
  | _ => True

/-- C8: `format_value` sends every mapping to `dict(keys=<ordered list of
keys>)` — the dict branch of the first-match-wins dispatch chain — and in
particular the mapping a to 1, b to 2 formats to the literal
dict(keys=['a', 'b']). -/
theorem c8_dict_format :
    (∀ entries : List (String × PyValue),
      format_value (PyValue.pydict entries) =
        Except.ok ("dict(keys=" ++ pyListRepr (entries.map Prod.fst) ++ ")")) ∧
    format_value (PyValue.pydict [("a", plainInt 1), ("b", plainInt 2)]) =
      Except.ok expectedC8 :=
  ⟨fun _ => rfl, rfl⟩

/-- C2 counterexample: `format_value` is not total — on a value whose
default string conversion raises, the final `return str(value)` branch
propagates the exception instead of returning a string. -/
theorem c2_counterexample :
    format_value badValue = Except.error boom ∧
    (format_value badValue).isOk = false :=
  ⟨rfl, rfl⟩

/-- C2 amended: `format_value` returns a string for every value whose
fallback string conversion succeeds; only an exception raised by the
value's own `str()` propagates. -/
theorem c2_amended_total_on_convertible (v : PyValue) (h : strConvOk v) :
    (format_value v).isOk = true := by
  cases v <;> simp_all [format_value, strConvOk, Except.isOk, Except.toBool]

/-- C2 witness: the integer 7 satisfies the hypothesis and formats. -/
theorem c2_witness :
    strConvOk (plainInt 7) ∧ (format_value (plainInt 7)).isOk = true :=
  ⟨rfl, c2_amended_total_on_convertible (plainInt 7) rfl⟩

/-- C1: evaluating the wrapper on an invocation whose target raises (all
appends succeeding) shows the process-wide trace hook is still installed
when the wrapper re-raises: the `except` block never calls
`sys.settrace(None)`, contradicting the claim that the tracer is disarmed
on both exit paths. -/
theorem c1_tracer_left_armed_on_exception :
    (wrapper invRaise).result = Except.error zde ∧
    (wrapper invRaise).tracerArmed = true :=
  ⟨rfl, rfl⟩

/-- A sample target exception distinct from `zde`. -/
def valueErr : PyExc := ⟨"ValueError", "negative size"⟩

/-- A failing invocation used to check re-raising. -/
def invFailC3 : Invocation := { sampleInv with outcome := Except.error valueErr }

/-- An oracle on which the very first append (entry batch, global file)
raises and every other append succeeds. -/
def fsEntryGlobalFail : WriteStep → FileTarget → Option PyExc
  | WriteStep.entry, FileTarget.globalFile => some ioerr
  | _, _ => none

/-- An oracle on which only the entry append to the per-callable file
raises. -/
def fsFuncFail : WriteStep → FileTarget → Option PyExc
  | WriteStep.entry, FileTarget.funcFile => some ioerr
  | _, _ => none

/-- An oracle on which only the completion append to the global file
raises. -/
def fsCompFail : WriteStep → FileTarget → Option PyExc
  | WriteStep.completion, FileTarget.globalFile => some ioerr
  | _, _ => none

/-- The invocation whose entry append to the global file fails. -/
def invC4 : Invocation := { sampleInv with fs := fsEntryGlobalFail }

/-- A successful invocation whose completion append to the global file
fails. -/
def invC9 : Invocation := { sampleInv with fs := fsCompFail }

/-- An invocation whose positional-argument formatting raises `boom`. -/
def invC6 : Invocation := { sampleInv with args := [badValue] }

/-- A `call` trace event for a nested function `inner(x=3)`. -/
def evInner : FrameEvent where
  event := TraceEvent.call
  co_name := "inner"
  co_filename := "facefusion/core.py"
  argvals := Except.ok [("x", plainInt 3)]

/-- The nested-call record `trace_calls` builds for `evInner`. -/
def innerCall : NestedCall :=
  ⟨"inner", "core.py", NestedArgs.formatted [("x", "3")]⟩

/-- A failing invocation during which the nested call `inner(3)` fired. -/
def invC5fail : Invocation :=
  { sampleInv with events := [evInner], outcome := Except.error zde }

/-- A successful invocation during which the nested call `inner(3)`
fired. -/
def invC5succ : Invocation := { sampleInv with events := [evInner] }

/-- Whether some append of `res` wrote the line `s`. -/
def lineWritten (res : WrapResult) (s : String) : Bool :=
  res.written.any fun w => w.2.2.contains s

/-- Every completion batch contains the rendered nested calls, in order, as
a contiguous run between the header and the `[RESULT]` line. -/
theorem completionLines_split (nested : List NestedCall) (rr d : String) :
    ∃ pre post,
      completionLines nested rr d = pre ++ nested.map renderNested ++ post :=
  ⟨["\n[NESTED CALLS]"],
   ["\n[RESULT] " ++ rr, "[DURATION] " ++ d ++ " seconds",
    "[END] Function execution completed successfully", banner ++ "\n"],
   rfl⟩

/-- C7: when the target returns normally and every append succeeds, the
wrapper returns exactly the target's value. -/
theorem c7_returns_original_result (inv : Invocation) (r : PyValue)
    (hout : inv.outcome = Except.ok r)
    (hfs : ∀ s t, inv.fs s t = none) :
    (wrapper inv).result = Except.ok r := by
  simp [wrapper, hout, writeBatch, hfs]

/-- C7 witness: `add(2, 3)` returns `5` through the wrapper. -/
theorem c7_witness : (wrapper sampleInv).result = Except.ok (plainInt 5) :=
  c7_returns_original_result sampleInv (plainInt 5) rfl (fun _ _ => rfl)

/-- C3: when the target raises and every append succeeds, the wrapper
re-raises the very same exception (same type, same message) after writing
the failure batch to both files. -/
theorem c3_reraises_original_exception (inv : Invocation) (e : PyExc)
    (hout : inv.outcome = Except.error e)
    (hfs : ∀ s t, inv.fs s t = none) :
    (wrapper inv).result = Except.error e ∧
    (FileTarget.globalFile, WriteStep.failure,
      errorLines inv.func_name e.msg inv.tb inv.duration) ∈ (wrapper inv).written ∧
    (FileTarget.funcFile, WriteStep.failure,
      errorLines inv.func_name e.msg inv.tb inv.duration) ∈ (wrapper inv).written := by
  refine ⟨?_, ?_, ?_⟩ <;> simp [wrapper, hout, writeBatch, hfs]

/-- C3 witness: a target raising `ValueError` re-raises it through the
wrapper. -/
theorem c3_witness :
    (wrapper invFailC3).result = Except.error valueErr ∧
    (FileTarget.globalFile, WriteStep.failure,
      errorLines invFailC3.func_name valueErr.msg invFailC3.tb invFailC3.duration) ∈
      (wrapper invFailC3).written ∧
    (FileTarget.funcFile, WriteStep.failure,
      errorLines invFailC3.func_name valueErr.msg invFailC3.tb invFailC3.duration) ∈
      (wrapper invFailC3).written :=
  c3_reraises_original_exception invFailC3 valueErr rfl (fun _ _ => rfl)

/-- C6: when argument formatting raises, the wrapper substitutes the
placeholder list for the positional arguments and the error mapping for the
keyword arguments, and the target is still invoked — its outcome flows
through unchanged. -/
theorem c6_placeholder_on_format_failure (inv : Invocation) (e : PyExc)
    (hfmt : argsKwargsRepr inv.args inv.kwargs = Except.error e)
    (hfs : ∀ s t, inv.fs s t = none) :
    safeFormatArgs inv.args inv.kwargs =
      (["<error formatting args>"], [("error", e.msg)]) ∧
    (wrapper inv).result = inv.outcome := by
  constructor
  · simp [safeFormatArgs, hfmt]
  · cases houtc : inv.outcome with
    | ok r => simp [wrapper, houtc, writeBatch, hfs]
    | error e2 => simp [wrapper, houtc, writeBatch, hfs]

/-- C6 witness: an unformattable positional argument degrades to the
placeholders and the target still runs. -/
theorem c6_witness :
    safeFormatArgs invC6.args invC6.kwargs =
      (["<error formatting args>"], [("error", boom.msg)]) ∧
    (wrapper invC6).result = invC6.outcome :=
  c6_placeholder_on_format_failure invC6 boom rfl (fun _ _ => rfl)

/-- C4 counterexample: when the append to the first target (the global
file) raises at entry, the per-callable file receives nothing at all — the
append loop aborts — refuting the claim that a write error on the first
target still leaves the second target written. -/
theorem c4_counterexample :
    invC4.fs WriteStep.entry FileTarget.globalFile = some ioerr ∧
    (wrapper invC4).written = [] ∧
    (wrapper invC4).result = Except.error ioerr :=
  ⟨rfl, rfl, rfl⟩

/-- C4 amended: the two appends are sequential, global file first; a
failure on the global file aborts the batch so the per-callable file is not
written, while a failure on the per-callable file leaves the global file's
append intact. -/
theorem c4_amended_sequential_writes
    (fs : WriteStep → FileTarget → Option PyExc) (step : WriteStep)
    (lines : List String) (e : PyExc) :
    (fs step FileTarget.globalFile = some e →
      writeBatch fs step lines = ([], some e)) ∧
    (fs step FileTarget.globalFile = none →
      fs step FileTarget.funcFile = some e →
      writeBatch fs step lines =
        ([(FileTarget.globalFile, step, lines)], some e)) := by
  constructor
  · intro hg; simp [writeBatch, hg]
  · intro hg hf; simp [writeBatch, hg, hf]

/-- C4 witness: both failure shapes at a concrete batch. -/
theorem c4_witness :
    writeBatch fsEntryGlobalFail WriteStep.entry (["x"]) = ([], some ioerr) ∧
    writeBatch fsFuncFail WriteStep.entry (["x"]) =
      ([(FileTarget.globalFile, WriteStep.entry, ["x"])], some ioerr) :=
  ⟨(c4_amended_sequential_writes fsEntryGlobalFail WriteStep.entry (["x"]) ioerr).1 rfl,
   (c4_amended_sequential_writes fsFuncFail WriteStep.entry (["x"]) ioerr).2 rfl rfl⟩

/-- C5 counterexample: an invocation that fails after the nested call
`inner(3)` fired writes a failure batch containing neither the rendered
nested-call record nor even the `[NESTED CALLS]` header — nested calls do
not appear in the completion log of a failed invocation. -/
theorem c5_counterexample :
    trace_step evInner = some innerCall ∧
    lineWritten (wrapper invC5fail) (renderNested innerCall) = false ∧
    lineWritten (wrapper invC5fail) ("\n[NESTED CALLS]") = false ∧
    (wrapper invC5fail).result = Except.error zde :=
  ⟨rfl, rfl, rfl, rfl⟩

/-- C5 amended: on a successful invocation (appends succeeding), the
completion batch written to both files contains the rendered nested-call
records as a contiguous run in event order; and every observed `call` event
with a non-underscore name and readable parameters yields exactly the
record whose arguments are `format_value`-formatted. -/
theorem c5_amended_success_log_nested_order (inv : Invocation) (r : PyValue)
    (hout : inv.outcome = Except.ok r)
    (hfs : ∀ s t, inv.fs s t = none) :
    (∃ C : List String,
      (FileTarget.globalFile, WriteStep.completion, C) ∈ (wrapper inv).written ∧
      (FileTarget.funcFile, WriteStep.completion, C) ∈ (wrapper inv).written ∧
      ∃ pre post,
        C = pre ++ ((inv.events.filterMap trace_step).map renderNested) ++ post) ∧
    (∀ ev : FrameEvent, ∀ pairs : List (String × PyValue),
     ∀ m : List (String × String),
      ev.event = TraceEvent.call →
      pyStartswith ev.co_name ("_") = false →
      ev.argvals = Except.ok pairs →
      formatPairs pairs = Except.ok m →
      trace_step ev =
        some ⟨ev.co_name, basename ev.co_filename, NestedArgs.formatted m⟩) := by
  constructor
  · refine ⟨completionLines (inv.events.filterMap trace_step)
        (match format_value r with
         | Except.ok s => s
         | Except.error e => "<error formatting result: " ++ e.msg ++ ">")
        inv.duration, ?_, ?_, completionLines_split _ _ _⟩
    · simp [wrapper, hout, writeBatch, hfs]
    · simp [wrapper, hout, writeBatch, hfs]
  · intro ev pairs m hcall hpre hargs hfmt
    simp [trace_step, hcall, hpre, hargs, hfmt, Except.bind]

/-- C5 witness: the successful invocation with the nested call `inner(3)`. -/
theorem c5_witness :
    (∃ C : List String,
      (FileTarget.globalFile, WriteStep.completion, C) ∈
        (wrapper invC5succ).written ∧
      (FileTarget.funcFile, WriteStep.completion, C) ∈
        (wrapper invC5succ).written ∧
      ∃ pre post,
        C = pre ++
          ((invC5succ.events.filterMap trace_step).map renderNested) ++ post) ∧
    (∀ ev : FrameEvent, ∀ pairs : List (String × PyValue),
     ∀ m : List (String × String),
      ev.event = TraceEvent.call →
      pyStartswith ev.co_name ("_") = false →
      ev.argvals = Except.ok pairs →
      formatPairs pairs = Except.ok m →
      trace_step ev =
        some ⟨ev.co_name, basename ev.co_filename, NestedArgs.formatted m⟩) :=
  c5_amended_success_log_nested_order invC5succ (plainInt 5) rfl (fun _ _ => rfl)

/-- C9: when the target returns normally but the completion append raises,
the `except` block writes the failure batch (whose `[END]` line reads
Function execution failed) and the wrapper raises the I/O error — the
caller never receives the target's result. -/
theorem c9_completion_write_failure (inv : Invocation) (r : PyValue) (e : PyExc)
    (hout : inv.outcome = Except.ok r)
    (hentry : ∀ t, inv.fs WriteStep.entry t = none)
    (hcomp : inv.fs WriteStep.completion FileTarget.globalFile = some e)
    (hfail : ∀ t, inv.fs WriteStep.failure t = none) :
    (wrapper inv).result = Except.error e ∧
    (FileTarget.globalFile, WriteStep.failure,
      errorLines inv.func_name e.msg inv.tb inv.duration) ∈ (wrapper inv).written ∧
    "[END] Function execution failed" ∈
      errorLines inv.func_name e.msg inv.tb inv.duration := by
  refine ⟨?_, ?_, ?_⟩ <;>
    simp [wrapper, hout, writeBatch, hentry, hcomp, hfail, errorLines]

/-- C9 witness: the concrete invocation whose completion append fails. -/
theorem c9_witness :
    (wrapper invC9).result = Except.error ioerr ∧
    (FileTarget.globalFile, WriteStep.failure,
      errorLines invC9.func_name ioerr.msg invC9.tb invC9.duration) ∈
      (wrapper invC9).written ∧
    "[END] Function execution failed" ∈
      errorLines invC9.func_name ioerr.msg invC9.tb invC9.duration :=
  c9_completion_write_failure invC9 (plainInt 5) ioerr rfl
    (fun t => by cases t <;> rfl) rfl (fun t => by cases t <;> rfl)

/-- C10: with no positional arguments the entry log's `[ARGS]` field is the
literal None, and with no keyword arguments the `[KWARGS]` field is the
literal None. -/
theorem c10_none_placeholders (inv : Invocation) :
    (inv.args = [] → "[ARGS] None" ∈ entryLinesOf inv) ∧
    (inv.kwargs = [] → "[KWARGS] None" ∈ entryLinesOf inv) := by
  constructor
  · intro h
    simp only [entryLinesOf, entryLines, h, List.isEmpty_nil, if_true]
    have e1 : ("[ARGS] " ++ "None" : String) = "[ARGS] None" := rfl
    simp [e1]
  · intro h
    simp only [entryLinesOf, entryLines, h, List.isEmpty_nil, if_true]
    have e2 : ("[KWARGS] " ++ "None" : String) = "[KWARGS] None" := rfl
    simp [e2]

/-- C10 witness: an invocation called with no arguments at all. -/
theorem c10_witness :
    "[ARGS] None" ∈ entryLinesOf { sampleInv with args := [], kwargs := [] } ∧
    "[KWARGS] None" ∈ entryLinesOf { sampleInv with args := [], kwargs := [] } :=
  ⟨(c10_none_placeholders { sampleInv with args := [], kwargs := [] }).1 rfl,
   (c10_none_placeholders { sampleInv with args := [], kwargs := [] }).2 rfl⟩
